import Mathlib

/-!
Verification of the TelegramGPT conversation-completion pipeline.

This file shallowly embeds the parts of the repository that the checked
properties talk about: the message/conversation data model (`models.py`),
the completion orchestrator `ChatManager.__complete`, the idle-timeout
scheduler `ChatManager.__add_timeout_task` / `__expire_current_conversation`,
`ChatManager.retry_last_message`, `ChatManager.resume` and
`ChatManager.add_or_edit_mode` (`chat.py`), the title side task
`GPTClient.__set_title` (`gemini.py`), and the persistence operations
`Database.update_conversation` / `Database.get_conversation` (`db.py`).

Python strings are modelled as `List Char` (Python `len` = `List.length`,
slicing `s[:n]` = `List.take n`, `+` = `++`), so that the channel-limit
and truncation arithmetic of the source is reproduced exactly.
Timestamps are dropped: no modelled behaviour reads them.
The asynchronous backend stream is modelled by the list of cumulative
content snapshots it yields, each with its `time.monotonic()` arrival
time and a flag saying whether a Telegram edit attempted at that point
would succeed, followed by an optional terminal error
(TimeoutError / RateLimitException / generic Exception in the source).
-/

/-- Converts a Lean string literal to the `List Char` model of Python text. -/
def pstr (s : String) : List Char := s.data

/-- `models.Role`: the role enumeration of `models.py`. -/
inductive Role where
  | system
  | assistant
  | user
deriving DecidableEq, Repr

/-- `Role.value` as used by the source (`role.value` on the str enum). -/
def Role.value : Role → List Char
  | .system => pstr "system"
  | .assistant => pstr "assistant"
  | .user => pstr "user"

/-- `models.Message` (timestamp omitted: unread by modelled behaviour;
`AssistantMessage.replied_to_id` omitted likewise). -/
structure Message where
  id : Int
  role : Role
  content : List Char
deriving DecidableEq, Repr

/-- `db.DBMessage` row (role stored already validated, as written by
`Role.value`; timestamp omitted). -/
structure DBMessage where
  id : Int
  conversation_id : Int
  role : Role
  content : List Char
deriving DecidableEq, Repr

/-- `db.DBConversation` row with its joined messages (datetimes omitted). -/
structure DBConversation where
  id : Int
  chat_id : Int
  title : Option (List Char)
  messages : List DBMessage
deriving DecidableEq, Repr

/-- `models.Conversation` (started_at omitted: unread by modelled behaviour). -/
structure Conversation where
  id : Int
  title : Option (List Char)
  messages : List Message
deriving DecidableEq, Repr

/-- `models.Message.from_db_message`. -/
def Message.from_db_message (m : DBMessage) : Message :=
  { id := m.id, role := m.role, content := m.content }

/-- Python-level errors that the modelled code can raise. -/
inductive PyErr where
  | attributeError
  | invalidState
deriving DecidableEq, Repr

/-- `models.Conversation.from_db_model`, applied the way `ChatManager.resume`
applies it: to the `Optional[DBConversation]` returned by
`Database.get_conversation`.  On `None` the body's very first attribute
access `db_conversation.messages` raises `AttributeError`. -/
def Conversation.from_db_model : Option DBConversation → Except PyErr Conversation
  | none => .error .attributeError
  | some dbc =>
      .ok { id := dbc.id
            title := dbc.title
            messages := dbc.messages.map Message.from_db_message }

/-- `models.Conversation.last_message` (`None` on an empty transcript,
else `messages[-1]`). -/
def Conversation.last_message (c : Conversation) : Option Message :=
  c.messages.getLast?

/-- `chat.TELEGRAM_MAX_MESSAGE_LENGTH`. -/
def TELEGRAM_MAX_MESSAGE_LENGTH : Nat := 4096

/-- The fixed `truncation_suffix` of `ChatManager.__complete`. -/
def truncation_suffix : List Char := pstr "...\n\n(Type \"continue\" to view more.)"

/-- The final text computed by `ChatManager.__complete` after the stream is
exhausted: the accumulated content itself, or, past the channel limit, the
content cut to `TELEGRAM_MAX_MESSAGE_LENGTH - len(truncation_suffix)`
characters with the suffix appended. -/
def finalText (accumulated_content : List Char) : List Char :=
  if accumulated_content.length > TELEGRAM_MAX_MESSAGE_LENGTH then
    let max_content_len := max 0 (TELEGRAM_MAX_MESSAGE_LENGTH - truncation_suffix.length)
    accumulated_content.take max_content_len ++ truncation_suffix
  else
    accumulated_content

/-- Rendering of a Python value in an f-string: `str(title)` where the
title is `Optional[str]` (Python renders `None` as `"None"`). -/
def pyOptStr : Option (List Char) → List Char
  | none => pstr "None"
  | some t => t

/-- `str(i)` for a Python int. -/
def pyIntStr (i : Int) : List Char := (toString i).data

/-- `str.strip()`: drop unicode whitespace from both ends. -/
def pyStrip (s : List Char) : List Char :=
  ((s.dropWhile Char.isWhitespace).reverse.dropWhile Char.isWhitespace).reverse

/-- `chat.ConversationMode`. -/
structure ConversationMode where
  title : List Char
  prompt : List Char
  id : List Char
deriving DecidableEq, Repr

/-- `chat.ChatState`: the per-context ephemeral state.  The stored
`asyncio.Task` handle is modelled by the numeric id of the task in the
`TimerWorld` below. -/
structure ChatState where
  timeout_task : Option Nat := none
  current_conversation : Option Conversation := none
  new_mode_title : Option (List Char) := none
  editing_mode : Option ConversationMode := none
deriving DecidableEq, Repr

/-- The pool of `asyncio` tasks ever created by `__add_timeout_task`:
each entry is (task id, still alive i.e. not cancelled and not yet run);
`nextId` numbers task creations. -/
structure TimerWorld where
  tasks : List (Nat × Bool) := []
  nextId : Nat := 0
deriving DecidableEq, Repr

/-- Number of live (not-cancelled, not-fired) timeout tasks. -/
def TimerWorld.liveCount (w : TimerWorld) : Nat :=
  (w.tasks.filter (fun p => p.2)).length

/-- `task.cancel()` on the stored handle: marks that task dead. -/
def cancelTask (stored : Option Nat) (tasks : List (Nat × Bool)) : List (Nat × Bool) :=
  match stored with
  | none => tasks
  | some i => tasks.map (fun p => if p.1 = i then (p.1, false) else p)

/-- `ChatManager.__add_timeout_task`: cancel and clear any stored task,
then, when a conversation timeout is configured (Python truthiness:
`None` and `0` both disable), create and store a fresh timer task.
`conversation_timeout` mirrors the `int|None` constructor argument. -/
def add_timeout_task (conversation_timeout : Option Int) (st : ChatState)
    (w : TimerWorld) : ChatState × TimerWorld :=
  let w1 : TimerWorld := { w with tasks := cancelTask st.timeout_task w.tasks }
  let st1 : ChatState := { st with timeout_task := none }
  match conversation_timeout with
  | none => (st1, w1)
  | some t =>
      if t = 0 then (st1, w1)
      else ({ st1 with timeout_task := some w1.nextId },
            { w1 with tasks := w1.tasks ++ [(w1.nextId, true)],
                      nextId := w1.nextId + 1 })

/-- One observable side-effect call of the pipeline: Telegram bot calls and
Persistence Gateway calls, in program order.  `markup` is the
`callback_data` of the single inline button attached, if any; `ok` records
whether the awaited Telegram call succeeded (edit failures are caught and
logged by the source). -/
inductive BotCall where
  | sendMessage (chatId : Int) (text : List Char)
  | editMessage (chatId : Int) (messageId : Int) (text : List Char)
      (markup : Option (List Char)) (ok : Bool)
  | dbAddMessage (messageId : Int) (conversationId : Int) (role : List Char)
      (content : List Char)
  | dbUpdateMessage (messageId : Int) (content : List Char)
  | dbUpdateActiveConversation (chatId : Int) (conversationId : Int)
deriving DecidableEq, Repr

/-- One chunk of the backend stream as consumed by `__complete`:
`content` is the cumulative content of the yielded message
(`chunk_message.content`), `time` the `time.monotonic()` reading when the
chunk is processed, `editOk` whether a Telegram edit attempted while
processing this chunk would succeed. -/
structure Chunk where
  content : List Char
  time : Nat
  editOk : Bool
deriving DecidableEq, Repr

/-- The chunk with its edit-success oracle replaced. -/
def Chunk.withEditOk (b : Bool) (c : Chunk) : Chunk :=
  { c with editOk := b }

/-- Terminal failures of the backend stream, per the source's handlers:
`TimeoutError`, `models.RateLimitException`, and any other `Exception`. -/
inductive StreamErr where
  | timeoutError
  | rateLimited
  | otherError
deriving DecidableEq, Repr

/-- The behaviour of one backend stream (`gpt.complete(...)`): the chunks
it yields in order, then an optional terminal error (`none` = normal
exhaustion).  `chunkId` is the `id` carried by every yielded chunk message
(the source's `GPTClient.complete` sets it to the sent placeholder
message id). -/
structure StreamSpec where
  chunks : List Chunk
  err : Option StreamErr
  chunkId : Int
deriving DecidableEq, Repr

/-- The local variables of `ChatManager.__complete` that evolve through
the chunk loop, plus the trace of calls made so far.  `edit_times` is a
ghost trace: the `time.monotonic()` values at which intermediate edits
were attempted (successfully or not); it affects no behaviour. -/
structure CompleteState where
  assistant_message : Option Message := none
  accumulated_content : List Char := []
  last_edit_time : Nat := 0
  initial_db_add_done : Bool := false
  calls : List BotCall := []
  edit_times : List Nat := []
deriving DecidableEq, Repr

/-- Loop body, stage 1: `accumulated_content = chunk_message.content`. -/
def noteContent (ch : Chunk) (st : CompleteState) : CompleteState :=
  { st with accumulated_content := ch.content }

/-- Loop body, stage 2: on the first chunk, create the assistant message
with empty content and persist it immediately
(`db.add_message(assistant_message.id, conversation.id, 'assistant', '')`). -/
def ensureAssistant (conversationId : Int) (chunkId : Int)
    (st : CompleteState) : CompleteState :=
  if st.assistant_message.isNone then
    { st with
        assistant_message := some { id := chunkId, role := Role.assistant, content := [] }
        initial_db_add_done := true
        calls := st.calls ++
          [BotCall.dbAddMessage chunkId conversationId Role.assistant.value []] }
  else st

/-- Loop body, stage 3: the throttled Telegram edit.  Fires when
`current_time - last_edit_time > edit_throttle_interval`; both the success
and the failure branch set `last_edit_time = current_time`. -/
def throttledEdit (interval : Nat) (chatId : Int) (sentMessageId : Int)
    (ch : Chunk) (st : CompleteState) : CompleteState :=
  if ch.time - st.last_edit_time > interval then
    let am :=
      match st.assistant_message with
      | some m => some { m with content := st.accumulated_content }
      | none => none
    let display_limit := TELEGRAM_MAX_MESSAGE_LENGTH - 50
    let display_text :=
      if st.accumulated_content.length > display_limit then
        st.accumulated_content.take display_limit ++ pstr "...\n\nGenerating..."
      else
        st.accumulated_content ++ pstr "\n\nGenerating..."
    { st with
        assistant_message := am
        last_edit_time := ch.time
        calls := st.calls ++
          [BotCall.editMessage chatId sentMessageId display_text none ch.editOk]
        edit_times := st.edit_times ++ [ch.time] }
  else st

/-- One iteration of the `async for chunk_message in ...` loop. -/
def processChunk (interval : Nat) (chatId : Int) (sentMessageId : Int)
    (conversationId : Int) (chunkId : Int)
    (st : CompleteState) (ch : Chunk) : CompleteState :=
  throttledEdit interval chatId sentMessageId ch
    (ensureAssistant conversationId chunkId (noteContent ch st))

/-- The whole chunk loop. -/
def runLoop (interval : Nat) (chatId : Int) (sentMessageId : Int)
    (conversationId : Int) (chunkId : Int)
    (chunks : List Chunk) (st : CompleteState) : CompleteState :=
  chunks.foldl (processChunk interval chatId sentMessageId conversationId chunkId) st

/-- The `--- Stream finished ---` block of `__complete`: when an assistant
message was materialised, set its final content, append it to the
conversation if absent, persist the (possibly truncated) final text with
one `db.update_message`, and attempt one final Telegram edit. -/
def finishStream (chatId : Int) (sentMessageId : Int) (finalEditOk : Bool)
    (conversation : Conversation) (st : CompleteState) :
    Conversation × CompleteState :=
  match st.assistant_message with
  | none => (conversation, st)
  | some am0 =>
      let am : Message := { am0 with content := st.accumulated_content }
      let conversation :=
        if conversation.messages.contains am then conversation
        else { conversation with messages := conversation.messages ++ [am] }
      let final := finalText st.accumulated_content
      (conversation,
       { st with
           assistant_message := some am
           calls := st.calls ++
             [BotCall.dbUpdateMessage am.id final,
              BotCall.editMessage chatId sentMessageId final none finalEditOk] })

/-- The user-facing final edit made by each `except` handler of
`__complete`.  Timeout and the generic handler attach a Retry button
(`callback_data='/retry'`); the rate-limit handler attaches no markup. -/
def handleStreamErr (chatId : Int) (sentMessageId : Int) (errEditOk : Bool) :
    StreamErr → List BotCall
  | .timeoutError =>
      [BotCall.editMessage chatId sentMessageId (pstr "Generation timed out.")
        (some (pstr "/retry")) errEditOk]
  | .rateLimited =>
      [BotCall.editMessage chatId sentMessageId
        (pstr "⏳ The bot is currently busy or has reached a usage limit. Please try again in a few moments.")
        none errEditOk]
  | .otherError =>
      [BotCall.editMessage chatId sentMessageId (pstr "Sorry, an error occurred.")
        (some (pstr "/retry")) errEditOk]

/-- The result of one `ChatManager.__complete` invocation. -/
structure CompleteResult where
  conversation : Conversation
  state : ChatState
  world : TimerWorld
  calls : List BotCall
  edit_times : List Nat
deriving DecidableEq, Repr

/-- `ChatManager.__complete(conversation, sent_message_id)`: drive the
backend stream, then — whatever the outcome — install the conversation as
the context's current conversation and rearm the idle timer. -/
def complete (interval : Nat) (conversation_timeout : Option Int) (chatId : Int)
    (conversation : Conversation) (sentMessageId : Int) (stream : StreamSpec)
    (finalEditOk : Bool) (errEditOk : Bool)
    (st0 : ChatState) (w0 : TimerWorld) : CompleteResult :=
  let looped := runLoop interval chatId sentMessageId conversation.id
    stream.chunkId stream.chunks {}
  let finished :=
    match stream.err with
    | none => finishStream chatId sentMessageId finalEditOk conversation looped
    | some e =>
        (conversation,
         { looped with
             calls := looped.calls ++ handleStreamErr chatId sentMessageId errEditOk e })
  let st1 : ChatState := { st0 with current_conversation := some finished.1 }
  let armed := add_timeout_task conversation_timeout st1 w0
  { conversation := finished.1
    state := armed.1
    world := armed.2
    calls := finished.2.calls
    edit_times := finished.2.edit_times }

/-- The expiry notice appended by `__expire_current_conversation`
(Python f-string; an unset title renders as `None`). -/
def expiryNotice (title : Option (List Char)) : List Char :=
  pstr "\n\nThis conversation has expired and it was about \"" ++ pyOptStr title ++
    pstr "\". A new conversation has started."

/-- `ChatManager.__expire_current_conversation`: with no active
conversation, do nothing.  Otherwise clear it; then, only when the last
message is an assistant message, edit that message to its content plus the
expiry notice, with a "Resume this conversation" button whose
`callback_data` is `/resume_<conversation id>`. -/
def expire_current_conversation (chatId : Int) (editOk : Bool)
    (st : ChatState) : ChatState × List BotCall :=
  match st.current_conversation with
  | none => (st, [])
  | some conv =>
      let st1 : ChatState := { st with current_conversation := none }
      match conv.last_message with
      | none => (st1, [])
      | some lm =>
          if lm.role = Role.assistant then
            let new_text := lm.content ++ expiryNotice conv.title
            (st1,
             [BotCall.editMessage chatId lm.id new_text
               (some (pstr "/resume_" ++ pyIntStr conv.id)) editOk])
          else (st1, [])

/-- The body of `time_out_current_conversation` after its sleep: the fired
timer clears the stored handle, then runs the expiry. -/
def timer_fire (chatId : Int) (editOk : Bool) (st : ChatState) :
    ChatState × List BotCall :=
  let st1 : ChatState := { st with timeout_task := none }
  expire_current_conversation chatId editOk st1

/-- How a run of `ChatManager.retry_last_message` ends. -/
inductive RetryOutcome where
  /-- No current conversation: "No conversation to retry" sent, nothing else. -/
  | noConversation
  /-- No user message left to retry: placeholder edited to "No message to
  retry", no backend call. -/
  | noMessageToRetry
  /-- `__complete` re-invoked on the (possibly popped) conversation with the
  given placeholder message id; the trigger is the conversation's last
  message. -/
  | invokeComplete (conversation : Conversation) (sentMessageId : Int)
deriving DecidableEq, Repr

/-- `ChatManager.retry_last_message`.  `sentMessageId` is the id Telegram
assigns to the "Regenerating response..." placeholder. -/
def retry_last_message (chatId : Int) (sentMessageId : Int) (st : ChatState) :
    ChatState × List BotCall × RetryOutcome :=
  match st.current_conversation with
  | none =>
      (st, [BotCall.sendMessage chatId (pstr "No conversation to retry")],
       RetryOutcome.noConversation)
  | some conversation =>
      let calls0 := [BotCall.sendMessage chatId (pstr "Regenerating response...")]
      let conversation :=
        match conversation.last_message with
        | some lm =>
            if lm.role = Role.assistant then
              { conversation with messages := conversation.messages.dropLast }
            else conversation
        | none => conversation
      let st1 : ChatState := { st with current_conversation := some conversation }
      match conversation.last_message with
      | some lm =>
          if lm.role = Role.user then
            (st1, calls0, RetryOutcome.invokeComplete conversation sentMessageId)
          else
            (st1,
             calls0 ++
               [BotCall.editMessage chatId sentMessageId (pstr "No message to retry")
                 none true],
             RetryOutcome.noMessageToRetry)
      | none =>
          (st1,
           calls0 ++
             [BotCall.editMessage chatId sentMessageId (pstr "No message to retry")
               none true],
           RetryOutcome.noMessageToRetry)

/-- `Database.get_conversation`: the first stored row with the given id,
or `None`. -/
def get_conversation (rows : List DBConversation) (conversation_id : Int) :
    Option DBConversation :=
  rows.find? (fun r => r.id = conversation_id)

/-- `ChatManager.resume(conversation_id)`.  Mirrors the source exactly:
`Conversation.from_db_model` is applied to the optional row *before* the
`if not conversation` check, so a missing conversation raises
`AttributeError` and no call is made; a present row (a dataclass
instance, always truthy) proceeds to the resume path. -/
def resume (conversation_timeout : Option Int) (chatId : Int)
    (rows : List DBConversation) (current_mode : Option ConversationMode)
    (conversation_id : Int) (sentMessageId : Int)
    (st : ChatState) (w : TimerWorld) :
    Except PyErr (ChatState × TimerWorld × List BotCall) :=
  match Conversation.from_db_model (get_conversation rows conversation_id) with
  | .error e => .error e
  | .ok conversation =>
      let mode_description :=
        match current_mode with
        | some m => pstr " in mode \"" ++ m.title ++ pstr "\""
        | none => pstr ""
      let text := pstr "Resuming conversation \"" ++ pyOptStr conversation.title ++
        pstr "\"" ++ mode_description ++ pstr ": "
      let calls0 := [BotCall.sendMessage chatId text]
      let calls1 :=
        match conversation.last_message with
        | some lm =>
            calls0 ++ [BotCall.editMessage chatId sentMessageId (text ++ lm.content) none true]
        | none => calls0
      let st1 : ChatState := { st with current_conversation := some conversation }
      let calls2 := calls1 ++ [BotCall.dbUpdateActiveConversation chatId conversation.id]
      let armed := add_timeout_task conversation_timeout st1 w
      .ok (armed.1, armed.2, calls2)

/-- `Database.update_conversation(conversation_id, title)`:
`UPDATE conversations SET title = :title WHERE id = :id AND title IS NULL`
— the title column is written only where it is still unset. -/
def update_conversation (rows : List DBConversation) (conversation_id : Int)
    (title : List Char) : List DBConversation :=
  rows.map (fun r =>
    if r.id = conversation_id ∧ r.title = none then { r with title := some title }
    else r)

/-- The guard under which `GPTClient.complete` spawns the title task:
`conversation.title is None and assistant_message and
len(conversation.messages) < 3`.  `assistantMade` is the truthiness of the
local `assistant_message` (some chunk was yielded). -/
def titleSpawnCondition (conversation : Conversation) (assistantMade : Bool) : Bool :=
  conversation.title = none ∧ assistantMade ∧ conversation.messages.length < 3

/-- The fixed title-generation instruction of `GPTClient.__set_title`. -/
def titlePrompt : List Char :=
  pstr "You are a title generator. You will receive one or multiple messages of a conversation. You will reply with only the title of the conversation without any punctuation mark either at the begining or the end."

/-- Result of the single `__request` backend call made for a title. -/
inductive TitleReqResult where
  | ok (text : List Char)
  | rateLimitedErr
  | otherFailure
deriving DecidableEq, Repr

/-- What one run of `GPTClient.__set_title` did. -/
structure SetTitleResult where
  conversation : Conversation
  rows : List DBConversation
  /-- `some (system instruction, messages)` when a backend request was made. -/
  request : Option (List Char × List Message)
deriving DecidableEq, Repr

/-- `GPTClient.__set_title(conversation, db)`, with the backend's answer
to the (at most one) title request supplied as `req`.  Every failure path
leaves conversation and store unchanged. -/
def set_title (req : TitleReqResult) (conversation : Conversation)
    (rows : List DBConversation) : SetTitleResult :=
  if conversation.title ≠ none then
    { conversation := conversation, rows := rows, request := none }
  else
    let messages_for_title := conversation.messages.take 2
    if messages_for_title.isEmpty then
      { conversation := conversation, rows := rows, request := none }
    else
      match req with
      | .ok t =>
          let title := pyStrip t
          if title.isEmpty then
            { conversation := conversation, rows := rows,
              request := some (titlePrompt, messages_for_title) }
          else
            { conversation := { conversation with title := some title }
              rows := update_conversation rows conversation.id title
              request := some (titlePrompt, messages_for_title) }
      | .rateLimitedErr =>
          { conversation := conversation, rows := rows,
            request := some (titlePrompt, messages_for_title) }
      | .otherFailure =>
          { conversation := conversation, rows := rows,
            request := some (titlePrompt, messages_for_title) }

/-- `chat.ChatData`: the per-chat persistent-ish dictionary.  The `modes`
dict is modelled as an association list keyed by mode id. -/
structure ChatData where
  modes : List (List Char × ConversationMode) := []
  current_mode_id : Option (List Char) := none
deriving DecidableEq, Repr

/-- Python `dict[key] = value`: replace in place if the key exists, else
append (dict keys are unique, so replacing the first occurrence is
replacing the occurrence). -/
def dictInsert (k : List Char) (v : ConversationMode) :
    List (List Char × ConversationMode) → List (List Char × ConversationMode)
  | [] => [(k, v)]
  | (k2, v2) :: es => if k2 = k then (k, v) :: es else (k2, v2) :: dictInsert k v es

/-- `ChatContext.current_mode`: `None` when the stored id is falsy
(`None` or the empty string) or absent from the modes dict. -/
def currentMode (d : ChatData) : Option ConversationMode :=
  match d.current_mode_id with
  | none => none
  | some i => if i.isEmpty then none else d.modes.lookup i

/-- `ChatContext.set_current_mode`. -/
def setCurrentMode (mode : Option ConversationMode) (d : ChatData) : ChatData :=
  { d with current_mode_id := mode.map (fun m => m.id) }

/-- `ChatManager.add_or_edit_mode(prompt)`.  `newModeId` is the uuid the
`ConversationMode` constructor would generate for a newly created mode.
Editing an existing mode mutates the object aliased in the modes dict;
creating one with no pending title raises `Exception("Invalid state")`
(Python truthiness: a pending empty-string title also raises). -/
def add_or_edit_mode (chatId : Int) (newModeId : List Char) (prompt : List Char)
    (st : ChatState) (d : ChatData) :
    Except PyErr (ChatState × ChatData × List BotCall) :=
  match st.editing_mode with
  | some em =>
      let em2 : ConversationMode := { em with prompt := prompt }
      let d1 : ChatData :=
        { d with modes := d.modes.map (fun p => if p.1 = em.id then (p.1, em2) else p) }
      .ok ({ st with editing_mode := none }, d1,
           [BotCall.sendMessage chatId (pstr "Mode updated.")])
  | none =>
      match st.new_mode_title with
      | none => .error .invalidState
      | some title =>
          let st1 : ChatState := { st with new_mode_title := none }
          if title.isEmpty then .error .invalidState
          else
            let mode : ConversationMode := { title := title, prompt := prompt, id := newModeId }
            let d1 : ChatData := { d with modes := dictInsert mode.id mode d.modes }
            let d2 := if (currentMode d1).isNone then setCurrentMode (some mode) d1 else d1
            .ok (st1, d2, [BotCall.sendMessage chatId (pstr "Mode added.")])

/-- Recognises the Persistence Gateway call `db.add_message`. -/
def BotCall.isAddMessage : BotCall → Bool
  | .dbAddMessage _ _ _ _ => true
  | _ => false

/-- Recognises the Persistence Gateway call `db.update_message`. -/
def BotCall.isUpdateMessage : BotCall → Bool
  | .dbUpdateMessage _ _ => true
  | _ => false

/-- The id and role of the in-flight assistant message, if one exists. -/
def amSig (st : CompleteState) : Option (Int × Role) :=
  st.assistant_message.map (fun m => (m.id, m.role))

/-- The single-flight timer invariant: at most one timeout task is live,
and any live task is the one whose handle the context stores. -/
def TimerInv (st : ChatState) (w : TimerWorld) : Prop :=
  w.liveCount ≤ 1 ∧ ∀ p ∈ w.tasks, p.2 = true → st.timeout_task = some p.1

/-- `__add_timeout_task` applied `n` times in succession (no firing in
between). -/
def armNtimes (conversation_timeout : Option Int) : Nat → ChatState × TimerWorld →
    ChatState × TimerWorld
  | 0, sw => sw
  | n + 1, sw => armNtimes conversation_timeout n
      (add_timeout_task conversation_timeout sw.1 sw.2)

/-- `self.context.chat_state.current_conversation = conversation`. -/
def withCurrent (c : Conversation) (st : ChatState) : ChatState :=
  { st with current_conversation := some c }

/-- `conversation.messages.pop()`: drop the last message. -/
def popLastMessage (c : Conversation) : Conversation :=
  { c with messages := c.messages.dropLast }

/-- Two loop states that agree on everything except the recorded call
trace (used to show that Telegram edit failures do not influence the
throttle clock or the stream's progress). -/
def SameButCalls (s t : CompleteState) : Prop :=
  s.assistant_message = t.assistant_message
    ∧ s.accumulated_content = t.accumulated_content
    ∧ s.last_edit_time = t.last_edit_time
    ∧ s.initial_db_add_done = t.initial_db_add_done
    ∧ s.edit_times = t.edit_times

section Lemmas

variable {interval : Nat} {chatId sentMessageId conversationId chunkId : Int}

lemma processChunk_accum (st : CompleteState) (ch : Chunk) :
    (processChunk interval chatId sentMessageId conversationId chunkId st ch).accumulated_content
      = ch.content := by
  unfold processChunk throttledEdit ensureAssistant noteContent
  split <;> split <;> rfl

lemma processChunk_amSig (st : CompleteState) (ch : Chunk) :
    amSig (processChunk interval chatId sentMessageId conversationId chunkId st ch)
      = some ((amSig st).getD (chunkId, Role.assistant)) := by
  unfold processChunk throttledEdit ensureAssistant noteContent
  rcases h : st.assistant_message with _ | m <;> simp [h] <;> split <;> simp [amSig, h]

lemma runLoop_amSig_some (chunks : List Chunk) (st : CompleteState) (x : Int × Role)
    (h : amSig st = some x) :
    amSig (runLoop interval chatId sentMessageId conversationId chunkId chunks st) = some x := by
  induction chunks generalizing st with
  | nil => simpa [runLoop]
  | cons c cs ih =>
      simp only [runLoop, List.foldl_cons]
      exact ih _ (by rw [processChunk_amSig, h]; rfl)

lemma runLoop_amSig_cons (c : Chunk) (cs : List Chunk) (st : CompleteState)
    (h : st.assistant_message = none) :
    amSig (runLoop interval chatId sentMessageId conversationId chunkId (c :: cs) st)
      = some (chunkId, Role.assistant) := by
  simp only [runLoop, List.foldl_cons]
  exact runLoop_amSig_some cs _ _ (by rw [processChunk_amSig]; simp [amSig, h])

lemma runLoop_accum (chunks : List Chunk) (st : CompleteState) (c : Chunk)
    (h : chunks.getLast? = some c) :
    (runLoop interval chatId sentMessageId conversationId chunkId chunks st).accumulated_content
      = c.content := by
  induction chunks generalizing st with
  | nil => simp at h
  | cons d ds ih =>
      rcases ds with _ | ⟨e, es⟩
      · simp only [List.getLast?_singleton, Option.some.injEq] at h
        subst h
        simp [runLoop, processChunk_accum]
      · simp only [runLoop, List.foldl_cons] at *
        exact ih _ (by simpa using h)

lemma processChunk_assistant_isSome (st : CompleteState) (ch : Chunk) :
    (processChunk interval chatId sentMessageId conversationId chunkId st ch).assistant_message.isSome := by
  have h := @processChunk_amSig interval chatId sentMessageId conversationId
    chunkId st ch
  unfold amSig at h
  cases h2 : (processChunk interval chatId sentMessageId conversationId chunkId st ch).assistant_message
  · simp [h2] at h
  · rfl

lemma processChunk_filter_add_some (st : CompleteState) (ch : Chunk)
    (h : st.assistant_message.isSome) :
    (processChunk interval chatId sentMessageId conversationId chunkId st ch).calls.filter
        BotCall.isAddMessage
      = st.calls.filter BotCall.isAddMessage := by
  unfold processChunk throttledEdit ensureAssistant noteContent
  rcases h2 : st.assistant_message with _ | m
  · simp [h2] at h
  · simp [h2] <;> split <;> simp [List.filter_append, BotCall.isAddMessage]

lemma processChunk_filter_add_none (st : CompleteState) (ch : Chunk)
    (h : st.assistant_message = none) :
    (processChunk interval chatId sentMessageId conversationId chunkId st ch).calls.filter
        BotCall.isAddMessage
      = st.calls.filter BotCall.isAddMessage ++
        [BotCall.dbAddMessage chunkId conversationId Role.assistant.value []] := by
  unfold processChunk throttledEdit ensureAssistant noteContent
  simp [h] <;> split <;> simp [List.filter_append, BotCall.isAddMessage]

lemma runLoop_nil (st : CompleteState) :
    runLoop interval chatId sentMessageId conversationId chunkId [] st = st := rfl

lemma runLoop_cons (c : Chunk) (cs : List Chunk) (st : CompleteState) :
    runLoop interval chatId sentMessageId conversationId chunkId (c :: cs) st
      = runLoop interval chatId sentMessageId conversationId chunkId cs
          (processChunk interval chatId sentMessageId conversationId chunkId st c) := rfl

lemma runLoop_filter_add_some (chunks : List Chunk) (st : CompleteState)
    (h : st.assistant_message.isSome) :
    (runLoop interval chatId sentMessageId conversationId chunkId chunks st).calls.filter
        BotCall.isAddMessage
      = st.calls.filter BotCall.isAddMessage := by
  induction chunks generalizing st with
  | nil => simp [runLoop]
  | cons c cs ih =>
      rw [runLoop_cons, ih _ (processChunk_assistant_isSome st c),
        processChunk_filter_add_some st c h]

lemma runLoop_filter_add_cons (c : Chunk) (cs : List Chunk) (st : CompleteState)
    (h : st.assistant_message = none) :
    (runLoop interval chatId sentMessageId conversationId chunkId (c :: cs) st).calls.filter
        BotCall.isAddMessage
      = st.calls.filter BotCall.isAddMessage ++
        [BotCall.dbAddMessage chunkId conversationId Role.assistant.value []] := by
  rw [runLoop_cons, runLoop_filter_add_some cs _ (processChunk_assistant_isSome st c),
    processChunk_filter_add_none st c h]

lemma processChunk_filter_update (st : CompleteState) (ch : Chunk) :
    (processChunk interval chatId sentMessageId conversationId chunkId st ch).calls.filter
        BotCall.isUpdateMessage
      = st.calls.filter BotCall.isUpdateMessage := by
  unfold processChunk throttledEdit ensureAssistant noteContent
  rcases h2 : st.assistant_message with _ | m <;>
    simp [h2] <;> split <;> simp [List.filter_append, BotCall.isUpdateMessage]

lemma runLoop_filter_update (chunks : List Chunk) (st : CompleteState) :
    (runLoop interval chatId sentMessageId conversationId chunkId chunks st).calls.filter
        BotCall.isUpdateMessage
      = st.calls.filter BotCall.isUpdateMessage := by
  induction chunks generalizing st with
  | nil => simp [runLoop]
  | cons c cs ih =>
      rw [runLoop_cons, ih _, processChunk_filter_update st c]

lemma throttledEdit_editInv (st : CompleteState) (ch : Chunk)
    (h1 : st.last_edit_time = st.edit_times.getLastD 0)
    (h2 : List.Chain' (fun a b => interval < b - a) st.edit_times) :
    (throttledEdit interval chatId sentMessageId ch st).last_edit_time
        = (throttledEdit interval chatId sentMessageId ch st).edit_times.getLastD 0
      ∧ List.Chain' (fun a b => interval < b - a)
          (throttledEdit interval chatId sentMessageId ch st).edit_times := by
  unfold throttledEdit
  split
  · rename_i hguard
    constructor
    · simp [List.getLastD_eq_getLast?]
    · refine List.Chain'.append h2 (List.chain'_singleton _) ?_
      intro x hx y hy
      simp only [List.head?_cons, Option.mem_def, Option.some.injEq] at hy
      subst hy
      have hgl : st.edit_times.getLastD 0 = x := by
        simp only [Option.mem_def] at hx
        simp [List.getLastD_eq_getLast?, hx]
      rw [← hgl, ← h1]
      exact hguard
  · exact ⟨h1, h2⟩

lemma noteContent_edit_fields (st : CompleteState) (ch : Chunk) :
    (noteContent ch st).last_edit_time = st.last_edit_time
      ∧ (noteContent ch st).edit_times = st.edit_times := ⟨rfl, rfl⟩

lemma ensureAssistant_edit_fields (st : CompleteState) :
    (ensureAssistant conversationId chunkId st).last_edit_time = st.last_edit_time
      ∧ (ensureAssistant conversationId chunkId st).edit_times = st.edit_times := by
  unfold ensureAssistant
  split <;> exact ⟨rfl, rfl⟩

lemma processChunk_editInv (st : CompleteState) (ch : Chunk)
    (h1 : st.last_edit_time = st.edit_times.getLastD 0)
    (h2 : List.Chain' (fun a b => interval < b - a) st.edit_times) :
    (processChunk interval chatId sentMessageId conversationId chunkId st ch).last_edit_time
        = (processChunk interval chatId sentMessageId conversationId chunkId st ch).edit_times.getLastD 0
      ∧ List.Chain' (fun a b => interval < b - a)
          (processChunk interval chatId sentMessageId conversationId chunkId st ch).edit_times := by
  unfold processChunk
  have e1 := @ensureAssistant_edit_fields conversationId chunkId (noteContent ch st)
  have e2 := noteContent_edit_fields st ch
  exact throttledEdit_editInv _ ch (by rw [e1.1, e1.2, e2.1, e2.2]; exact h1)
    (by rw [e1.2, e2.2]; exact h2)

lemma runLoop_editInv (chunks : List Chunk) (st : CompleteState)
    (h1 : st.last_edit_time = st.edit_times.getLastD 0)
    (h2 : List.Chain' (fun a b => interval < b - a) st.edit_times) :
    List.Chain' (fun a b => interval < b - a)
      (runLoop interval chatId sentMessageId conversationId chunkId chunks st).edit_times := by
  induction chunks generalizing st with
  | nil => simpa [runLoop]
  | cons c cs ih =>
      rw [runLoop_cons]
      have h3 := @processChunk_editInv interval chatId sentMessageId
        conversationId chunkId st c h1 h2
      exact ih _ h3.1 h3.2

lemma processChunk_sameButCalls (s t : CompleteState) (ch : Chunk) (b : Bool)
    (h : SameButCalls s t) :
    SameButCalls
      (processChunk interval chatId sentMessageId conversationId chunkId s (ch.withEditOk b))
      (processChunk interval chatId sentMessageId conversationId chunkId t ch) := by
  obtain ⟨h1, h2, h3, h4, h5⟩ := h
  unfold SameButCalls processChunk throttledEdit ensureAssistant noteContent Chunk.withEditOk
  simp only [h1, h2, h3, h4, h5]
  rcases t.assistant_message with _ | m <;> simp <;> split <;> simp_all

lemma runLoop_sameButCalls (chunks : List Chunk) (s t : CompleteState) (b : Bool)
    (h : SameButCalls s t) :
    SameButCalls
      (runLoop interval chatId sentMessageId conversationId chunkId
        (chunks.map (Chunk.withEditOk b)) s)
      (runLoop interval chatId sentMessageId conversationId chunkId chunks t) := by
  induction chunks generalizing s t with
  | nil => simpa [runLoop]
  | cons c cs ih =>
      simp only [List.map_cons]
      rw [runLoop_cons, runLoop_cons]
      exact ih _ _ (processChunk_sameButCalls s t c b h)

lemma complete_edit_times (interval : Nat) (cto : Option Int) (chatId : Int)
    (conv : Conversation) (sentId : Int) (stream : StreamSpec) (fOk eOk : Bool)
    (st0 : ChatState) (w0 : TimerWorld) :
    (complete interval cto chatId conv sentId stream fOk eOk st0 w0).edit_times
      = (runLoop interval chatId sentId conv.id stream.chunkId stream.chunks {}).edit_times := by
  unfold complete finishStream
  cases h : stream.err <;> simp only [h]
  · split <;> rfl

lemma complete_calls_err (interval : Nat) (cto : Option Int) (chatId : Int)
    (conv : Conversation) (sentId : Int) (stream : StreamSpec) (fOk eOk : Bool)
    (st0 : ChatState) (w0 : TimerWorld) (e : StreamErr) (h : stream.err = some e) :
    (complete interval cto chatId conv sentId stream fOk eOk st0 w0).calls
      = (runLoop interval chatId sentId conv.id stream.chunkId stream.chunks {}).calls
        ++ handleStreamErr chatId sentId eOk e := by
  unfold complete
  simp only [h]

lemma complete_calls_ok (interval : Nat) (cto : Option Int) (chatId : Int)
    (conv : Conversation) (sentId : Int) (stream : StreamSpec) (fOk eOk : Bool)
    (st0 : ChatState) (w0 : TimerWorld) (lc : Chunk)
    (herr : stream.err = none) (hlast : stream.chunks.getLast? = some lc) :
    (complete interval cto chatId conv sentId stream fOk eOk st0 w0).calls
      = (runLoop interval chatId sentId conv.id stream.chunkId stream.chunks {}).calls
        ++ [BotCall.dbUpdateMessage stream.chunkId (finalText lc.content),
            BotCall.editMessage chatId sentId (finalText lc.content) none fOk] := by
  obtain ⟨c, cs, hc⟩ : ∃ c cs, stream.chunks = c :: cs := by
    cases hcc : stream.chunks with
    | nil => rw [hcc] at hlast; simp at hlast
    | cons c cs => exact ⟨c, cs, rfl⟩
  have hsig := @runLoop_amSig_cons interval chatId sentId conv.id stream.chunkId
    c cs {} rfl
  rw [← hc] at hsig
  have hacc := @runLoop_accum interval chatId sentId conv.id stream.chunkId
    stream.chunks {} lc hlast
  rcases hm : (runLoop interval chatId sentId conv.id stream.chunkId stream.chunks
      {}).assistant_message with _ | m
  · rw [amSig, hm] at hsig; simp at hsig
  · simp only [amSig, hm, Option.map, Option.some.injEq, Prod.mk.injEq] at hsig
    unfold complete finishStream
    simp only [herr, hm, hacc]
    rw [hsig.1]

end Lemmas

/-- C6: within one completion, any two consecutive intermediate presenter
update attempts are at least the configured throttle interval apart on the
monotonic clock (the very first update is only constrained against the
clock's origin 0), and the attempt times — hence the coalescing of chunks
and the progress of the stream — are unchanged if every intermediate edit
fails instead of succeeding: a failed edit advances the throttle clock
exactly like a successful one and does not abort the loop. -/
theorem throttle_law (interval : Nat) (cto : Option Int) (chatId : Int)
    (conv : Conversation) (sentId : Int) (stream : StreamSpec) (fOk eOk : Bool)
    (st0 : ChatState) (w0 : TimerWorld) (b : Bool) :
    List.Chain' (fun t1 t2 => interval ≤ t2 - t1)
      (complete interval cto chatId conv sentId stream fOk eOk st0 w0).edit_times
    ∧ (complete interval cto chatId conv sentId
          { stream with chunks := stream.chunks.map (Chunk.withEditOk b) } fOk eOk
          st0 w0).edit_times
        = (complete interval cto chatId conv sentId stream fOk eOk st0 w0).edit_times := by
  constructor
  · rw [complete_edit_times]
    exact List.Chain'.imp (fun t1 t2 h => le_of_lt h)
      (runLoop_editInv stream.chunks {} rfl List.chain'_nil)
  · rw [complete_edit_times, complete_edit_times]
    exact (runLoop_sameButCalls stream.chunks {} {} b ⟨rfl, rfl, rfl, rfl, rfl⟩).2.2.2.2

/-- C1: when the backend stream ends normally after at least one chunk with
final cumulative content `cn`, the single final `update_message` writes and
the final presenter edit displays the same text: `cn` itself when
`len(cn) ≤ 4096`, else `cn` cut to `4096 - len(suffix)` characters with the
fixed suffix appended, ending with the suffix and of total length ≤ 4096. -/
theorem complete_final_content_and_truncation
    (interval : Nat) (cto : Option Int) (chatId : Int) (conv : Conversation)
    (sentId : Int) (stream : StreamSpec) (fOk eOk : Bool)
    (st0 : ChatState) (w0 : TimerWorld) (lc : Chunk)
    (herr : stream.err = none) (hlast : stream.chunks.getLast? = some lc) :
    ((complete interval cto chatId conv sentId stream fOk eOk st0 w0).calls.filter
        BotCall.isUpdateMessage
      = [BotCall.dbUpdateMessage stream.chunkId (finalText lc.content)])
    ∧ (complete interval cto chatId conv sentId stream fOk eOk st0 w0).calls.getLast?
      = some (BotCall.editMessage chatId sentId (finalText lc.content) none fOk)
    ∧ (lc.content.length ≤ TELEGRAM_MAX_MESSAGE_LENGTH → finalText lc.content = lc.content)
    ∧ (lc.content.length > TELEGRAM_MAX_MESSAGE_LENGTH →
        finalText lc.content
          = lc.content.take (TELEGRAM_MAX_MESSAGE_LENGTH - truncation_suffix.length)
            ++ truncation_suffix
        ∧ truncation_suffix.IsSuffix (finalText lc.content)
        ∧ (finalText lc.content).length ≤ TELEGRAM_MAX_MESSAGE_LENGTH) := by
  have hcalls := complete_calls_ok interval cto chatId conv sentId stream fOk eOk
    st0 w0 lc herr hlast
  refine ⟨?_, ?_, ?_, ?_⟩
  · rw [hcalls, List.filter_append, runLoop_filter_update]
    simp [BotCall.isUpdateMessage]
  · rw [hcalls, show (runLoop interval chatId sentId conv.id stream.chunkId
        stream.chunks {}).calls ++
          [BotCall.dbUpdateMessage stream.chunkId (finalText lc.content),
           BotCall.editMessage chatId sentId (finalText lc.content) none fOk]
      = ((runLoop interval chatId sentId conv.id stream.chunkId stream.chunks {}).calls ++
          [BotCall.dbUpdateMessage stream.chunkId (finalText lc.content)]) ++
          [BotCall.editMessage chatId sentId (finalText lc.content) none fOk]
      from by simp]
    exact List.getLast?_concat _
  · intro hle
    unfold finalText
    rw [if_neg (by omega)]
  · intro hgt
    have hsuf : truncation_suffix.length = 36 := rfl
    have hmax : TELEGRAM_MAX_MESSAGE_LENGTH = 4096 := rfl
    have heq : finalText lc.content
        = lc.content.take (TELEGRAM_MAX_MESSAGE_LENGTH - truncation_suffix.length)
          ++ truncation_suffix := by
      unfold finalText
      rw [if_pos (by omega)]
      simp
    refine ⟨heq, ⟨_, heq.symm⟩, ?_⟩
    rw [heq]
    simp only [List.length_append, List.length_take, hsuf, hmax]
    omega

/-- Witness for C1: a concrete over-limit completion; the persisted text is
the truncated-and-suffixed final content, of length exactly 4096. -/
theorem complete_final_content_and_truncation_witness :
    ((complete 1 none 7 ⟨1, none, []⟩ 200
        ⟨[⟨List.replicate 5000 'A', 0, true⟩], none, 500⟩ true true {} {}).calls.filter
        BotCall.isUpdateMessage
      = [BotCall.dbUpdateMessage 500 (finalText (List.replicate 5000 'A'))])
    ∧ (finalText (List.replicate 5000 'A')).length = 4096 :=
  ⟨(complete_final_content_and_truncation 1 none 7 ⟨1, none, []⟩ 200
      ⟨[⟨List.replicate 5000 'A', 0, true⟩], none, 500⟩ true true {} {}
      ⟨List.replicate 5000 'A', 0, true⟩ rfl rfl).1,
   by
    have h4 := (complete_final_content_and_truncation 1 none 7 ⟨1, none, []⟩ 200
      ⟨[⟨List.replicate 5000 'A', 0, true⟩], none, 500⟩ true true {} {}
      ⟨List.replicate 5000 'A', 0, true⟩ rfl rfl).2.2.2
      (by rw [List.length_replicate]; decide)
    rw [h4.1, List.length_append, List.length_take, List.length_replicate]
    rfl⟩

/-- C2, counterexample: a stream that yields one chunk ("Hi") and then
fails with a timeout.  The claim asserts that yielding at least one chunk
brings exactly one `add_message` *and* exactly one `update_message`; the
code makes the add but, failing mid-stream, never reaches the final
persist, so the update count is 0, not 1. -/
theorem complete_midstream_failure_counterexample :
    ((complete 1 none 7 ⟨1, none, []⟩ 200
        ⟨[⟨pstr "Hi", 0, true⟩], some StreamErr.timeoutError, 500⟩ true true
        {} {}).calls.filter BotCall.isAddMessage).length = 1
    ∧ ((complete 1 none 7 ⟨1, none, []⟩ 200
        ⟨[⟨pstr "Hi", 0, true⟩], some StreamErr.timeoutError, 500⟩ true true
        {} {}).calls.filter BotCall.isUpdateMessage).length = 0 :=
  ⟨rfl, rfl⟩

/-- C2, amended: if the stream yields no chunk before failing, neither
`add_message` nor `update_message` is called.  If it yields at least one
chunk, exactly one `add_message` is made, with empty content, while the
first chunk is processed; and exactly one `update_message` is made, with
the final (possibly truncated) content, when the stream subsequently ends
normally — a stream failing after the first chunk leaves the single
`add_message` but produces no `update_message`. -/
theorem complete_durable_write_discipline
    (interval : Nat) (cto : Option Int) (chatId : Int) (conv : Conversation)
    (sentId : Int) (stream : StreamSpec) (fOk eOk : Bool)
    (st0 : ChatState) (w0 : TimerWorld) :
    (stream.chunks = [] →
      (complete interval cto chatId conv sentId stream fOk eOk st0 w0).calls.filter
          BotCall.isAddMessage = []
      ∧ (complete interval cto chatId conv sentId stream fOk eOk st0 w0).calls.filter
          BotCall.isUpdateMessage = [])
    ∧ (∀ c cs, stream.chunks = c :: cs →
        (complete interval cto chatId conv sentId stream fOk eOk st0 w0).calls.filter
            BotCall.isAddMessage
          = [BotCall.dbAddMessage stream.chunkId conv.id Role.assistant.value []]
        ∧ (processChunk interval chatId sentId conv.id stream.chunkId {} c).calls.filter
            BotCall.isAddMessage
          = [BotCall.dbAddMessage stream.chunkId conv.id Role.assistant.value []])
    ∧ (∀ lc, stream.err = none → stream.chunks.getLast? = some lc →
        (complete interval cto chatId conv sentId stream fOk eOk st0 w0).calls.filter
            BotCall.isUpdateMessage
          = [BotCall.dbUpdateMessage stream.chunkId (finalText lc.content)])
    ∧ (∀ e, stream.err = some e →
        (complete interval cto chatId conv sentId stream fOk eOk st0 w0).calls.filter
            BotCall.isUpdateMessage = []) := by
  refine ⟨?_, ?_, ?_, ?_⟩
  · intro hchunks
    cases herr : stream.err with
    | none =>
        have hcalls : (complete interval cto chatId conv sentId stream fOk eOk
            st0 w0).calls = [] := by
          unfold complete finishStream
          simp only [herr, hchunks]
          rfl
        rw [hcalls]
        exact ⟨rfl, rfl⟩
    | some e =>
        have hcalls := complete_calls_err interval cto chatId conv sentId stream
          fOk eOk st0 w0 e herr
        rw [hchunks] at hcalls
        rw [hcalls]
        cases e <;> exact ⟨rfl, rfl⟩
  · intro c cs hc
    have h1 : (complete interval cto chatId conv sentId stream fOk eOk st0
        w0).calls.filter BotCall.isAddMessage
        = (runLoop interval chatId sentId conv.id stream.chunkId stream.chunks
            {}).calls.filter BotCall.isAddMessage := by
      cases herr : stream.err with
      | none =>
          have hne : stream.chunks ≠ [] := by rw [hc]; simp
          rw [complete_calls_ok interval cto chatId conv sentId stream fOk eOk
            st0 w0 _ herr (List.getLast?_eq_getLast stream.chunks hne),
            List.filter_append]
          simp [BotCall.isAddMessage]
      | some e =>
          rw [complete_calls_err interval cto chatId conv sentId stream fOk eOk
            st0 w0 e herr, List.filter_append]
          cases e <;> simp [handleStreamErr, BotCall.isAddMessage]
    constructor
    · rw [h1, hc, runLoop_filter_add_cons c cs {} rfl]
      rfl
    · rw [processChunk_filter_add_none {} c rfl]
      rfl
  · intro lc herr hlast
    rw [complete_calls_ok interval cto chatId conv sentId stream fOk eOk st0 w0
      lc herr hlast, List.filter_append, runLoop_filter_update]
    simp [BotCall.isUpdateMessage]
  · intro e herr
    rw [complete_calls_err interval cto chatId conv sentId stream fOk eOk st0 w0
      e herr, List.filter_append, runLoop_filter_update]
    cases e <;> simp [handleStreamErr, BotCall.isUpdateMessage]

/-- Witness for C2 (amended): on a concrete one-chunk stream that ends
normally, exactly the one empty-content `add_message` is recorded. -/
theorem complete_durable_write_discipline_witness :
    (complete 1 none 7 ⟨1, none, []⟩ 200 ⟨[⟨pstr "Hi", 5, true⟩], none, 500⟩
        true true {} {}).calls.filter BotCall.isAddMessage
      = [BotCall.dbAddMessage 500 1 Role.assistant.value []] :=
  ((complete_durable_write_discipline 1 none 7 ⟨1, none, []⟩ 200
      ⟨[⟨pstr "Hi", 5, true⟩], none, 500⟩ true true {} {}).2.1
    ⟨pstr "Hi", 5, true⟩ [] rfl).1

/-- C3: a backend stream that raises `RateLimited` before yielding any
chunk makes no `add_message` and no `update_message` call; the single
final presenter update carries the fixed busy text with no retry
affordance, while the Timeout and generic-failure outcomes attach a Retry
button. -/
theorem complete_rate_limited_before_first_chunk
    (interval : Nat) (cto : Option Int) (chatId : Int) (conv : Conversation)
    (sentId : Int) (stream : StreamSpec) (fOk eOk : Bool)
    (st0 : ChatState) (w0 : TimerWorld) (hchunks : stream.chunks = []) :
    (stream.err = some StreamErr.rateLimited →
      (complete interval cto chatId conv sentId stream fOk eOk st0 w0).calls
        = [BotCall.editMessage chatId sentId
            (pstr "⏳ The bot is currently busy or has reached a usage limit. Please try again in a few moments.")
            none eOk])
    ∧ (∀ e, stream.err = some e →
        (complete interval cto chatId conv sentId stream fOk eOk st0 w0).calls.filter
            BotCall.isAddMessage = []
        ∧ (complete interval cto chatId conv sentId stream fOk eOk st0 w0).calls.filter
            BotCall.isUpdateMessage = [])
    ∧ (stream.err = some StreamErr.timeoutError →
        (complete interval cto chatId conv sentId stream fOk eOk st0 w0).calls
          = [BotCall.editMessage chatId sentId (pstr "Generation timed out.")
              (some (pstr "/retry")) eOk])
    ∧ (stream.err = some StreamErr.otherError →
        (complete interval cto chatId conv sentId stream fOk eOk st0 w0).calls
          = [BotCall.editMessage chatId sentId (pstr "Sorry, an error occurred.")
              (some (pstr "/retry")) eOk]) := by
  refine ⟨?_, ?_, ?_, ?_⟩
  · intro herr
    rw [complete_calls_err interval cto chatId conv sentId stream fOk eOk st0 w0
      _ herr, hchunks]
    rfl
  · intro e herr
    rw [complete_calls_err interval cto chatId conv sentId stream fOk eOk st0 w0
      e herr, hchunks]
    cases e <;> exact ⟨rfl, rfl⟩
  · intro herr
    rw [complete_calls_err interval cto chatId conv sentId stream fOk eOk st0 w0
      _ herr, hchunks]
    rfl
  · intro herr
    rw [complete_calls_err interval cto chatId conv sentId stream fOk eOk st0 w0
      _ herr, hchunks]
    rfl

/-- Witness for C3: the concrete rate-limited empty stream yields exactly
the single busy-text edit with no markup. -/
theorem complete_rate_limited_before_first_chunk_witness :
    (complete 1 none 7 ⟨1, none, []⟩ 200 ⟨[], some StreamErr.rateLimited, 500⟩
        true true {} {}).calls
      = [BotCall.editMessage 7 200
          (pstr "⏳ The bot is currently busy or has reached a usage limit. Please try again in a few moments.")
          none true] :=
  (complete_rate_limited_before_first_chunk 1 none 7 ⟨1, none, []⟩ 200
    ⟨[], some StreamErr.rateLimited, 500⟩ true true {} {} rfl).1 rfl

lemma cancel_filter (st : ChatState) (w : TimerWorld)
    (h : ∀ p ∈ w.tasks, p.2 = true → st.timeout_task = some p.1) :
    (cancelTask st.timeout_task w.tasks).filter (fun p => p.2) = [] := by
  rw [List.filter_eq_nil_iff]
  intro p hp
  unfold cancelTask at hp
  cases hst : st.timeout_task with
  | none =>
      rw [hst] at hp
      intro hp2
      have := h p hp hp2
      rw [hst] at this
      exact Option.noConfusion this
  | some i =>
      rw [hst] at hp
      simp only [List.mem_map] at hp
      obtain ⟨q, hq, hqe⟩ := hp
      by_cases hqi : q.1 = i
      · rw [if_pos hqi] at hqe
        rw [← hqe]
        simp
      · rw [if_neg hqi] at hqe
        subst hqe
        intro h2
        have := h q hq h2
        rw [hst] at this
        exact hqi (Option.some.inj this).symm

lemma add_timeout_task_current (cto : Option Int) (st : ChatState) (w : TimerWorld) :
    (add_timeout_task cto st w).1.current_conversation = st.current_conversation := by
  unfold add_timeout_task
  rcases cto with _ | t
  · rfl
  · dsimp only
    split <;> rfl

lemma add_timeout_task_spec (cto : Option Int) (st : ChatState) (w : TimerWorld)
    (h : ∀ p ∈ w.tasks, p.2 = true → st.timeout_task = some p.1) :
    TimerInv (add_timeout_task cto st w).1 (add_timeout_task cto st w).2
    ∧ (cto = none →
        (add_timeout_task cto st w).2.liveCount = 0
        ∧ (add_timeout_task cto st w).1.timeout_task = none)
    ∧ (∀ t, cto = some t → t ≠ 0 →
        (add_timeout_task cto st w).2.liveCount = 1
        ∧ (add_timeout_task cto st w).1.timeout_task = some w.nextId
        ∧ (add_timeout_task cto st w).2.tasks.filter (fun p => p.2) = [(w.nextId, true)]
        ∧ (add_timeout_task cto st w).2.nextId = w.nextId + 1) := by
  have hc := cancel_filter st w h
  unfold add_timeout_task
  rcases cto with _ | t
  · refine ⟨⟨?_, ?_⟩, fun _ => ⟨?_, rfl⟩, fun t ht => Option.noConfusion ht⟩
    · simp [TimerWorld.liveCount, hc]
    · intro p hp hp2
      exfalso
      have : p ∈ (cancelTask st.timeout_task w.tasks).filter (fun p => p.2) :=
        List.mem_filter.mpr ⟨hp, hp2⟩
      rw [hc] at this
      exact List.not_mem_nil p this
    · simp [TimerWorld.liveCount, hc]
  · dsimp only
    by_cases ht0 : t = 0
    · rw [if_pos ht0]
      refine ⟨⟨?_, ?_⟩, fun he => Option.noConfusion he, fun u hu hu0 => ?_⟩
      · simp [TimerWorld.liveCount, hc]
      · intro p hp hp2
        exfalso
        have : p ∈ (cancelTask st.timeout_task w.tasks).filter (fun p => p.2) :=
          List.mem_filter.mpr ⟨hp, hp2⟩
        rw [hc] at this
        exact List.not_mem_nil p this
      · exfalso
        exact hu0 (by rw [ht0] at hu; exact (Option.some.inj hu).symm)
    · rw [if_neg ht0]
      have hfil : (cancelTask st.timeout_task w.tasks ++ [(w.nextId, true)]).filter
          (fun p => p.2) = [(w.nextId, true)] := by
        rw [List.filter_append, hc]
        rfl
      refine ⟨⟨?_, ?_⟩, fun he => Option.noConfusion he,
        fun u hu hu0 => ⟨?_, rfl, hfil, rfl⟩⟩
      · simp [TimerWorld.liveCount, hfil]
      · intro p hp hp2
        have : p ∈ (cancelTask st.timeout_task w.tasks ++ [(w.nextId, true)]).filter
            (fun p => p.2) := List.mem_filter.mpr ⟨hp, hp2⟩
        rw [hfil] at this
        simp only [List.mem_singleton] at this
        rw [this]
      · simp [TimerWorld.liveCount, hfil]

lemma armNtimes_single (t : Int) (ht : t ≠ 0) (n : Nat) (st : ChatState)
    (w : TimerWorld) (h : TimerInv st w) :
    ∃ i, (armNtimes (some t) (n + 1) (st, w)).1.timeout_task = some i
      ∧ (armNtimes (some t) (n + 1) (st, w)).2.tasks.filter (fun p => p.2)
          = [(i, true)] := by
  induction n generalizing st w with
  | zero =>
      have hs := add_timeout_task_spec (some t) st w h.2
      exact ⟨w.nextId, (hs.2.2 t rfl ht).2.1, (hs.2.2 t rfl ht).2.2.1⟩
  | succ m ih =>
      have hs := add_timeout_task_spec (some t) st w h.2
      exact ih (add_timeout_task (some t) st w).1 (add_timeout_task (some t) st w).2 hs.1

lemma complete_state_world (interval : Nat) (cto : Option Int) (chatId : Int)
    (conv : Conversation) (sentId : Int) (stream : StreamSpec) (fOk eOk : Bool)
    (st0 : ChatState) (w0 : TimerWorld) :
    (complete interval cto chatId conv sentId stream fOk eOk st0 w0).state
        = (add_timeout_task cto
            (withCurrent
              (complete interval cto chatId conv sentId stream fOk eOk st0 w0).conversation
              st0)
            w0).1
    ∧ (complete interval cto chatId conv sentId stream fOk eOk st0 w0).world
        = (add_timeout_task cto
            (withCurrent
              (complete interval cto chatId conv sentId stream fOk eOk st0 w0).conversation
              st0)
            w0).2 := by
  unfold complete withCurrent
  cases h : stream.err <;> simp only [h] <;> constructor <;> trivial

/-- C5: after every completion attempt — normal end, timeout, rate limit
or other failure — the conversation is installed as the context's current
conversation and the idle timer is rearmed: arming cancels and clears any
previously stored timer first, so from any state satisfying the
single-flight invariant at most one timeout task is live afterwards; with
a configured nonzero timeout the rearm leaves exactly one live, freshly
created timer; with no timeout configured it leaves none; and arming n+1
times in succession leaves exactly one live timer, the last-armed,
stored one. -/
theorem complete_rearms_and_single_timer
    (interval : Nat) (cto : Option Int) (chatId : Int) (conv : Conversation)
    (sentId : Int) (stream : StreamSpec) (fOk eOk : Bool)
    (st0 : ChatState) (w0 : TimerWorld) (n : Nat) (t : Int) :
    ((complete interval cto chatId conv sentId stream fOk eOk st0 w0).state.current_conversation
      = some (complete interval cto chatId conv sentId stream fOk eOk st0 w0).conversation)
    ∧ (TimerInv st0 w0 →
        TimerInv (complete interval cto chatId conv sentId stream fOk eOk st0 w0).state
          (complete interval cto chatId conv sentId stream fOk eOk st0 w0).world)
    ∧ (TimerInv st0 w0 → cto = some t → t ≠ 0 →
        (complete interval cto chatId conv sentId stream fOk eOk st0 w0).world.liveCount = 1
        ∧ (complete interval cto chatId conv sentId stream fOk eOk st0 w0).state.timeout_task
            = some w0.nextId
        ∧ (complete interval cto chatId conv sentId stream fOk eOk st0 w0).world.nextId
            = w0.nextId + 1)
    ∧ (cto = none →
        (complete interval cto chatId conv sentId stream fOk eOk st0 w0).state.timeout_task = none
        ∧ (TimerInv st0 w0 →
            (complete interval cto chatId conv sentId stream fOk eOk st0 w0).world.liveCount = 0))
    ∧ (∀ st w, TimerInv st w → cto = some t → t ≠ 0 →
        ∃ i, (armNtimes cto (n + 1) (st, w)).1.timeout_task = some i
          ∧ (armNtimes cto (n + 1) (st, w)).2.tasks.filter (fun p => p.2) = [(i, true)]) := by
  obtain ⟨hst, hw⟩ := complete_state_world interval cto chatId conv sentId stream
    fOk eOk st0 w0
  refine ⟨?_, ?_, ?_, ?_, ?_⟩
  · rw [hst, add_timeout_task_current]
    rfl
  · intro hinv
    rw [hst, hw]
    exact (add_timeout_task_spec cto
      (withCurrent (complete interval cto chatId conv sentId stream fOk eOk
        st0 w0).conversation st0) w0 hinv.2).1
  · intro hinv hc ht
    subst hc
    have hs := (add_timeout_task_spec (some t)
      (withCurrent (complete interval (some t) chatId conv sentId stream fOk eOk
        st0 w0).conversation st0) w0 hinv.2).2.2 t rfl ht
    rw [hst, hw]
    exact ⟨hs.1, hs.2.1, hs.2.2.2⟩
  · intro hc
    subst hc
    refine ⟨?_, ?_⟩
    · rw [hst]
      unfold add_timeout_task
      rfl
    · intro hinv
      rw [hw]
      exact ((add_timeout_task_spec none
        (withCurrent (complete interval none chatId conv sentId stream fOk eOk
          st0 w0).conversation st0) w0 hinv.2).2.1 rfl).1
  · intro st w hinv hc ht
    subst hc
    exact armNtimes_single t ht n st w hinv

/-- Witness for C5: a concrete failed completion (rate-limited, empty
stream) with a 30-second timeout still installs the conversation and
leaves exactly one live timer. -/
theorem complete_rearms_and_single_timer_witness :
    (complete 1 (some 30) 7 ⟨1, none, []⟩ 200
        ⟨[], some StreamErr.rateLimited, 500⟩ true true {} {}).state.current_conversation
      = some (complete 1 (some 30) 7 ⟨1, none, []⟩ 200
          ⟨[], some StreamErr.rateLimited, 500⟩ true true {} {}).conversation
    ∧ (complete 1 (some 30) 7 ⟨1, none, []⟩ 200
        ⟨[], some StreamErr.rateLimited, 500⟩ true true {} {}).world.liveCount = 1 :=
  ⟨(complete_rearms_and_single_timer 1 (some 30) 7 ⟨1, none, []⟩ 200
      ⟨[], some StreamErr.rateLimited, 500⟩ true true {} {} 0 30).1,
   ((complete_rearms_and_single_timer 1 (some 30) 7 ⟨1, none, []⟩ 200
      ⟨[], some StreamErr.rateLimited, 500⟩ true true {} {} 0 30).2.2.1
      ⟨by decide, by intro p hp h2; exact absurd hp (List.not_mem_nil p)⟩
      rfl (by decide)).1⟩

/-- C7: when the idle timer fires for a context holding an active
conversation, the active conversation (and the fired timer's stored
handle) is always cleared; if the conversation's last message is an
assistant message, the presenter edit for that message's slot becomes the
original content followed by the expiry notice naming the conversation's
title, with a "Resume this conversation" button whose callback carries the
conversation's id; with no last message, or a non-assistant last message,
no presenter call is made. -/
theorem timer_fire_expiry (chatId : Int) (editOk : Bool) (st : ChatState)
    (conv : Conversation) (h : st.current_conversation = some conv) :
    (timer_fire chatId editOk st).1.current_conversation = none
    ∧ (timer_fire chatId editOk st).1.timeout_task = none
    ∧ (∀ lm, conv.last_message = some lm → lm.role = Role.assistant →
        (timer_fire chatId editOk st).2
          = [BotCall.editMessage chatId lm.id (lm.content ++ expiryNotice conv.title)
              (some (pstr "/resume_" ++ pyIntStr conv.id)) editOk])
    ∧ (conv.last_message = none → (timer_fire chatId editOk st).2 = [])
    ∧ (∀ lm, conv.last_message = some lm → lm.role ≠ Role.assistant →
        (timer_fire chatId editOk st).2 = []) := by
  refine ⟨?_, ?_, ?_, ?_, ?_⟩
  · unfold timer_fire expire_current_conversation
    dsimp only
    simp only [h]
    rcases hlm : conv.last_message with _ | lm
    · rfl
    · dsimp only
      split <;> rfl
  · unfold timer_fire expire_current_conversation
    dsimp only
    simp only [h]
    rcases hlm : conv.last_message with _ | lm
    · rfl
    · dsimp only
      split <;> rfl
  · intro lm hlm hrole
    unfold timer_fire expire_current_conversation
    dsimp only
    simp only [h, hlm]
    rw [if_pos hrole]
  · intro hlm
    unfold timer_fire expire_current_conversation
    dsimp only
    simp only [h, hlm]
  · intro lm hlm hrole
    unfold timer_fire expire_current_conversation
    dsimp only
    simp only [h, hlm]
    rw [if_neg hrole]

/-- Witness for C7: a concrete expiry of a conversation whose last message
is the assistant reply "Paris is the capital.". -/
theorem timer_fire_expiry_witness :
    (timer_fire 7 true
        { timeout_task := some 0,
          current_conversation :=
            some ⟨5, some (pstr "Capitals"),
              [⟨10, Role.assistant, pstr "Paris is the capital."⟩]⟩ }).2
      = [BotCall.editMessage 7 10
          (pstr "Paris is the capital." ++ expiryNotice (some (pstr "Capitals")))
          (some (pstr "/resume_" ++ pyIntStr 5)) true]
    ∧ (timer_fire 7 true
        { timeout_task := some 0,
          current_conversation :=
            some ⟨5, some (pstr "Capitals"),
              [⟨10, Role.assistant, pstr "Paris is the capital."⟩]⟩ }).1.current_conversation
      = none :=
  ⟨(timer_fire_expiry 7 true _
      ⟨5, some (pstr "Capitals"), [⟨10, Role.assistant, pstr "Paris is the capital."⟩]⟩
      rfl).2.2.1 ⟨10, Role.assistant, pstr "Paris is the capital."⟩ rfl rfl,
   (timer_fire_expiry 7 true _
      ⟨5, some (pstr "Capitals"), [⟨10, Role.assistant, pstr "Paris is the capital."⟩]⟩
      rfl).1⟩

/-- C8: with no current conversation, retry reports "No conversation to
retry" and does nothing else.  With a current conversation whose last
message is an assistant message, that message is removed; if the remaining
last message is a user message, completion is re-invoked on the popped
conversation (whose last message is that user message, the trigger);
otherwise — nothing left, or a non-user tail — the placeholder is edited
to "No message to retry" and no completion is invoked. -/
theorem retry_removes_assistant_and_retriggers (chatId sentId : Int) (st : ChatState) :
    (st.current_conversation = none →
      retry_last_message chatId sentId st
        = (st, [BotCall.sendMessage chatId (pstr "No conversation to retry")],
            RetryOutcome.noConversation))
    ∧ (∀ conv lm, st.current_conversation = some conv →
        conv.last_message = some lm → lm.role = Role.assistant →
        (∀ lm2, (popLastMessage conv).last_message = some lm2 → lm2.role = Role.user →
            retry_last_message chatId sentId st
              = (withCurrent (popLastMessage conv) st,
                  [BotCall.sendMessage chatId (pstr "Regenerating response...")],
                  RetryOutcome.invokeComplete (popLastMessage conv) sentId))
        ∧ ((popLastMessage conv).last_message = none →
            retry_last_message chatId sentId st
              = (withCurrent (popLastMessage conv) st,
                  [BotCall.sendMessage chatId (pstr "Regenerating response..."),
                    BotCall.editMessage chatId sentId (pstr "No message to retry") none true],
                  RetryOutcome.noMessageToRetry))
        ∧ (∀ lm2, (popLastMessage conv).last_message = some lm2 → lm2.role ≠ Role.user →
            retry_last_message chatId sentId st
              = (withCurrent (popLastMessage conv) st,
                  [BotCall.sendMessage chatId (pstr "Regenerating response..."),
                    BotCall.editMessage chatId sentId (pstr "No message to retry") none true],
                  RetryOutcome.noMessageToRetry))) := by
  constructor
  · intro h
    unfold retry_last_message
    simp only [h]
  · intro conv lm hconv hlm hrole
    refine ⟨?_, ?_, ?_⟩
    · intro lm2 hlm2 hrole2
      unfold retry_last_message withCurrent popLastMessage
      simp only [hconv, hlm]
      rw [if_pos hrole]
      unfold popLastMessage at hlm2
      simp only [hlm2]
      rw [if_pos hrole2]
    · intro hlm2
      unfold retry_last_message withCurrent popLastMessage
      simp only [hconv, hlm]
      rw [if_pos hrole]
      unfold popLastMessage at hlm2
      simp only [hlm2]
      rfl
    · intro lm2 hlm2 hrole2
      unfold retry_last_message withCurrent popLastMessage
      simp only [hconv, hlm]
      rw [if_pos hrole]
      unfold popLastMessage at hlm2
      simp only [hlm2]
      rw [if_neg hrole2]
      rfl

/-- Witness for C8: retrying `[user "Hi", assistant "Hello"]` removes the
assistant reply and re-invokes completion with the user message as the
conversation's last (trigger) message. -/
theorem retry_removes_assistant_and_retriggers_witness :
    retry_last_message 7 300
        { current_conversation :=
            some ⟨1, none, [⟨100, Role.user, pstr "Hi"⟩, ⟨200, Role.assistant, pstr "Hello"⟩]⟩ }
      = (withCurrent (popLastMessage
            ⟨1, none, [⟨100, Role.user, pstr "Hi"⟩, ⟨200, Role.assistant, pstr "Hello"⟩]⟩)
          { current_conversation :=
              some ⟨1, none, [⟨100, Role.user, pstr "Hi"⟩, ⟨200, Role.assistant, pstr "Hello"⟩]⟩ },
          [BotCall.sendMessage 7 (pstr "Regenerating response...")],
          RetryOutcome.invokeComplete (popLastMessage
            ⟨1, none, [⟨100, Role.user, pstr "Hi"⟩, ⟨200, Role.assistant, pstr "Hello"⟩]⟩) 300) :=
  ((retry_removes_assistant_and_retriggers 7 300 _).2
      ⟨1, none, [⟨100, Role.user, pstr "Hi"⟩, ⟨200, Role.assistant, pstr "Hello"⟩]⟩
      ⟨200, Role.assistant, pstr "Hello"⟩ rfl rfl rfl).1
    ⟨100, Role.user, pstr "Hi"⟩ rfl rfl

/-- C4: evaluated at a conversation id absent from the store,
`resume` raises `AttributeError` out of `Conversation.from_db_model(None)`
— the user never receives the "Failed to find that conversation" message
and no call of any kind is made — while for a stored conversation id the
claimed success path does hold: the loaded conversation becomes the
context's current conversation, the active-conversation pointer is
persisted and the idle timer is armed. -/
theorem resume_missing_conversation_raises :
    get_conversation [] 999 = none
    ∧ resume (some 30) 7 [] none 999 300 {} {} = Except.error PyErr.attributeError
    ∧ resume (some 30) 7 [⟨1, 7, some (pstr "T"), [⟨10, 1, Role.assistant, pstr "Hello"⟩]⟩]
        none 1 300 {} {}
      = Except.ok
          (⟨some 0, some ⟨1, some (pstr "T"), [⟨10, Role.assistant, pstr "Hello"⟩]⟩, none, none⟩,
           ⟨[(0, true)], 1⟩,
           [BotCall.sendMessage 7 (pstr "Resuming conversation \"T\": "),
            BotCall.editMessage 7 300 (pstr "Resuming conversation \"T\": Hello") none true,
            BotCall.dbUpdateActiveConversation 7 1]) := by
  refine ⟨rfl, rfl, rfl⟩

lemma dictInsert_lookup (k i : List Char) (v : ConversationMode)
    (m : List (List Char × ConversationMode)) :
    (dictInsert k v m).lookup i = if i = k then some v else m.lookup i := by
  induction m with
  | nil =>
      by_cases hik : i = k
      · simp [dictInsert, List.lookup, hik]
      · simp [dictInsert, List.lookup, beq_eq_false_iff_ne.mpr hik, hik]
  | cons p es ih =>
      rcases p with ⟨k2, v2⟩
      by_cases hk2 : k2 = k
      · rw [show dictInsert k v ((k2, v2) :: es) = (k, v) :: es from by
          simp only [dictInsert]; rw [if_pos hk2]]
        by_cases hik : i = k
        · simp [List.lookup, hik]
        · have hb : (i == k) = false := beq_eq_false_iff_ne.mpr hik
          have hb2 : (i == k2) = false := beq_eq_false_iff_ne.mpr (hk2 ▸ hik)
          simp [List.lookup, hb, hb2, hik]
      · rw [show dictInsert k v ((k2, v2) :: es) = (k2, v2) :: dictInsert k v es from by
          simp only [dictInsert]; rw [if_neg hk2]]
        by_cases hik2 : i = k2
        · have hik : ¬ i = k := fun he => hk2 ((hik2 ▸ he : k2 = k))
          simp [List.lookup, hik2, hik, hk2]
        · have hb : (i == k2) = false := beq_eq_false_iff_ne.mpr hik2
          simp [List.lookup, hb, ih]

/-- C10: creating a new mode (nothing being edited, a pending nonempty
title) succeeds with "Mode added."; when the context has no currently
active mode the new mode becomes the active one, and when a mode is
already active the active-mode pointer is left unchanged. -/
theorem add_mode_sets_active_when_none (chatId : Int)
    (newModeId prompt title : List Char) (st : ChatState) (d : ChatData)
    (hedit : st.editing_mode = none) (htitle : st.new_mode_title = some title)
    (hnt : title.isEmpty = false) (hni : newModeId.isEmpty = false) :
    (currentMode d = none →
      ∃ st2 d2,
        add_or_edit_mode chatId newModeId prompt st d
          = .ok (st2, d2, [BotCall.sendMessage chatId (pstr "Mode added.")])
        ∧ d2.current_mode_id = some newModeId
        ∧ currentMode d2 = some ⟨title, prompt, newModeId⟩
        ∧ st2.new_mode_title = none)
    ∧ (∀ mcur, currentMode d = some mcur →
        ∃ st2 d2,
          add_or_edit_mode chatId newModeId prompt st d
            = .ok (st2, d2, [BotCall.sendMessage chatId (pstr "Mode added.")])
          ∧ d2.current_mode_id = d.current_mode_id) := by
  have hlk := fun i => dictInsert_lookup newModeId i
    ⟨title, prompt, newModeId⟩ d.modes
  constructor
  · intro hcm
    unfold add_or_edit_mode
    simp only [hedit, htitle, hnt, Bool.false_eq_true, if_false]
    cases hid : d.current_mode_id with
    | none =>
        refine ⟨_, _, rfl, rfl, ?_, rfl⟩
        simp [currentMode, setCurrentMode, hni, hlk]
    | some i =>
        unfold currentMode at hcm
        rw [hid] at hcm
        dsimp only at hcm
        by_cases hie : i.isEmpty
        · have hd1 : currentMode
              { modes := dictInsert newModeId ⟨title, prompt, newModeId⟩ d.modes,
                current_mode_id := some i } = none := by
            unfold currentMode
            simp [hie]
          rw [hd1]
          refine ⟨_, _, rfl, rfl, ?_, rfl⟩
          simp [currentMode, setCurrentMode, hni, hlk]
        · rw [if_neg (by simp [hie])] at hcm
          by_cases hik : i = newModeId
          · have hd1 : currentMode
                { modes := dictInsert newModeId ⟨title, prompt, newModeId⟩ d.modes,
                  current_mode_id := some i }
                = some ⟨title, prompt, newModeId⟩ := by
              unfold currentMode
              dsimp only
              rw [if_neg hie, hlk i, if_pos hik]
            rw [hd1]
            simp only [Option.isNone_some, Bool.false_eq_true, if_false]
            refine ⟨_, _, rfl, ?_, ?_, rfl⟩
            · simp [hik]
            · exact hd1
          · have hd1 : currentMode
                { modes := dictInsert newModeId ⟨title, prompt, newModeId⟩ d.modes,
                  current_mode_id := some i } = none := by
              unfold currentMode
              dsimp only
              rw [if_neg hie, hlk i, if_neg hik]
              exact hcm
            rw [hd1]
            refine ⟨_, _, rfl, rfl, ?_, rfl⟩
            simp [currentMode, setCurrentMode, hni, hlk]
  · intro mcur hcm
    unfold add_or_edit_mode
    simp only [hedit, htitle, hnt, Bool.false_eq_true, if_false]
    unfold currentMode at hcm
    cases hid : d.current_mode_id with
    | none => rw [hid] at hcm; exact Option.noConfusion hcm
    | some i =>
        rw [hid] at hcm
        dsimp only at hcm
        by_cases hie : i.isEmpty
        · rw [if_pos (by simp [hie])] at hcm
          exact Option.noConfusion hcm
        · rw [if_neg (by simp [hie])] at hcm
          by_cases hik : i = newModeId
          · have hd1 : currentMode
                { modes := dictInsert newModeId ⟨title, prompt, newModeId⟩ d.modes,
                  current_mode_id := some i }
                = some ⟨title, prompt, newModeId⟩ := by
              unfold currentMode
              dsimp only
              rw [if_neg hie, hlk i, if_pos hik]
            rw [hd1]
            simp only [Option.isNone_some, Bool.false_eq_true, if_false]
            exact ⟨_, _, rfl, rfl⟩
          · have hd1 : currentMode
                { modes := dictInsert newModeId ⟨title, prompt, newModeId⟩ d.modes,
                  current_mode_id := some i } = some mcur := by
              unfold currentMode
              dsimp only
              rw [if_neg hie, hlk i, if_neg hik]
              exact hcm
            rw [hd1]
            simp only [Option.isNone_some, Bool.false_eq_true, if_false]
            exact ⟨_, _, rfl, rfl⟩

/-- Witness for C10: adding a first mode to an empty registry makes it
the active mode. -/
theorem add_mode_sets_active_when_none_witness :
    ∃ st2 d2,
      add_or_edit_mode 7 (pstr "m1") (pstr "You are a helpful pirate.")
          { new_mode_title := some (pstr "Pirate") } {}
        = .ok (st2, d2, [BotCall.sendMessage 7 (pstr "Mode added.")])
      ∧ d2.current_mode_id = some (pstr "m1")
      ∧ currentMode d2
          = some ⟨pstr "Pirate", pstr "You are a helpful pirate.", pstr "m1"⟩
      ∧ st2.new_mode_title = none :=
  (add_mode_sets_active_when_none 7 (pstr "m1") (pstr "You are a helpful pirate.")
      (pstr "Pirate") { new_mode_title := some (pstr "Pirate") } {}
      rfl rfl rfl rfl).1 rfl

lemma set_title_request_shape (req : TitleReqResult) (conv : Conversation)
    (rows : List DBConversation) :
    (set_title req conv rows).request = none
    ∨ (set_title req conv rows).request
        = some (titlePrompt, conv.messages.take 2) := by
  unfold set_title
  split
  · exact Or.inl rfl
  · split
    · dsimp only
      split
      · exact Or.inl rfl
      · split
        · exact Or.inr rfl
        · exact Or.inr rfl
    · dsimp only
      split
      · exact Or.inl rfl
      · exact Or.inr rfl
    · dsimp only
      split
      · exact Or.inl rfl
      · exact Or.inr rfl

/-- C9: the title-generation side task assigns a title at most once: the
spawn guard requires an unset title and fewer than 3 messages; the single
backend request it can make uses the fixed title-generation instruction
and the conversation's first one-or-two messages; a conversation that
already has a title is left completely untouched; the persistence write
only sets the title of rows whose title is still unset, so an assigned
title is never overwritten; and a failed request (rate limit or other) or
an empty generated title leaves conversation and store unchanged, while a
successful nonempty title is stripped, set in memory and written through
`update_conversation`. -/
theorem title_assigned_at_most_once (req : TitleReqResult) (conv : Conversation)
    (rows : List DBConversation) (cid : Int) (t : List Char) :
    (∀ made, titleSpawnCondition conv made = true →
        conv.title = none ∧ made = true ∧ conv.messages.length < 3)
    ∧ (∀ p, (set_title req conv rows).request = some p →
        p = (titlePrompt, conv.messages.take 2))
    ∧ (conv.title ≠ none →
        set_title req conv rows = ⟨conv, rows, none⟩)
    ∧ (∀ (i : Nat) (r : DBConversation) (x : List Char),
        rows[i]? = some r → r.title = some x →
        (update_conversation rows cid t)[i]? = some r)
    ∧ ((req = TitleReqResult.rateLimitedErr ∨ req = TitleReqResult.otherFailure) →
        (set_title req conv rows).conversation = conv
        ∧ (set_title req conv rows).rows = rows)
    ∧ (∀ s, req = TitleReqResult.ok s → pyStrip s = [] →
        (set_title req conv rows).conversation = conv
        ∧ (set_title req conv rows).rows = rows)
    ∧ (∀ s, req = TitleReqResult.ok s → pyStrip s ≠ [] → conv.title = none →
        conv.messages ≠ [] →
        (set_title req conv rows).conversation = { conv with title := some (pyStrip s) }
        ∧ (set_title req conv rows).rows
            = update_conversation rows conv.id (pyStrip s)) := by
  refine ⟨?_, ?_, ?_, ?_, ?_, ?_, ?_⟩
  · intro made h
    simpa [titleSpawnCondition] using h
  · intro p hp
    rcases set_title_request_shape req conv rows with h | h
    · rw [hp] at h
      exact Option.noConfusion h
    · rw [hp] at h
      exact Option.some.inj h
  · intro h
    unfold set_title
    rw [if_pos h]
  · intro i r x hir hx
    unfold update_conversation
    rw [List.getElem?_map, hir]
    dsimp only [Option.map]
    rw [if_neg (fun hc => by rw [hx] at hc; exact Option.noConfusion hc.2)]
  · intro hreq
    rcases hreq with h | h <;>
      (subst h
       unfold set_title
       split
       · exact ⟨rfl, rfl⟩
       · dsimp only
         split
         · exact ⟨rfl, rfl⟩
         · exact ⟨rfl, rfl⟩)
  · intro s hreq hstrip
    subst hreq
    unfold set_title
    split
    · exact ⟨rfl, rfl⟩
    · dsimp only
      split
      · exact ⟨rfl, rfl⟩
      · rw [if_pos (by simp [List.isEmpty_iff, hstrip])]
        exact ⟨rfl, rfl⟩
  · intro s hreq hstrip htitle hmsgs
    subst hreq
    unfold set_title
    rw [if_neg (by simp [htitle])]
    dsimp only
    rw [if_neg (by simp [List.isEmpty_iff, hmsgs])]
    rw [if_neg (by simp [List.isEmpty_iff, hstrip])]
    exact ⟨rfl, rfl⟩

/-- Witness for C9: a concrete successful titling (" Greetings " stripped
to "Greetings") on an untitled one-message conversation, and the
persistence write leaving an already-titled row untouched. -/
theorem title_assigned_at_most_once_witness :
    ((set_title (TitleReqResult.ok (pstr " Greetings "))
        ⟨1, none, [⟨100, Role.user, pstr "Hi"⟩]⟩ [⟨1, 7, none, []⟩]).conversation
      = { (⟨1, none, [⟨100, Role.user, pstr "Hi"⟩]⟩ : Conversation) with
          title := some (pyStrip (pstr " Greetings ")) })
    ∧ (update_conversation [⟨1, 7, some (pstr "Old"), []⟩] 1 (pstr "New"))[0]?
      = some ⟨1, 7, some (pstr "Old"), []⟩ :=
  ⟨((title_assigned_at_most_once (TitleReqResult.ok (pstr " Greetings "))
      ⟨1, none, [⟨100, Role.user, pstr "Hi"⟩]⟩ [⟨1, 7, none, []⟩] 1
      (pstr "New")).2.2.2.2.2.2 (pstr " Greetings ") rfl (by decide) rfl
      (by decide)).1,
   (title_assigned_at_most_once (TitleReqResult.ok (pstr " Greetings "))
      ⟨1, none, [⟨100, Role.user, pstr "Hi"⟩]⟩ [⟨1, 7, some (pstr "Old"), []⟩] 1
      (pstr "New")).2.2.2.1 0 ⟨1, 7, some (pstr "Old"), []⟩ (pstr "Old") rfl rfl⟩
